import Mathlib

/-!
Verification development for the flag-guessing game (script.js).

The file shallowly embeds the parts of the source the claims talk about:

* the JavaScript truthiness conventions used by the parsers (a string field
  is truthy when it is present and non-empty; an object field is truthy
  when it is present);
* the three response parsers (parseRestCountriesV3, parseRestCountriesV2,
  parseNextJsCountries), the allow-list filter (filterPopularCountries)
  and the translation table (translateToUzbek);
* the multi-source loading loop of loadFlags;
* the round state machine: playRound, startGame, the Enter-key handler,
  the shuffle/reveal completion callbacks, startCountdown, the countdown
  interval tick, showCountryName and resetForNextRound;
* the random cadence of shuffleFlags, with Math.random modelled as a
  stream of rational numbers in [0, 1).

JavaScript undefined is modelled by Option.none.  A JavaScript value that
is known not to be a string (for example the name object falling through
a || chain) is also modelled as none: such a value can never match an
allow-list entry or a translation key, which is all the claims consult.
-/

/-- Truthiness of a possibly-undefined JavaScript string: present and
non-empty.  undefined and the empty string are falsy. -/
def strTruthy : Option String → Bool
  | some s => s ≠ ""
  | none => false

/-- JavaScript `a || b` on possibly-undefined strings: the first operand
when it is truthy, otherwise the second operand unchanged (JavaScript
returns the last operand when every operand is falsy). -/
def jsOrStr (a b : Option String) : Option String :=
  if strTruthy a then a else b

/-- One playable item as built by the parsers: the object literal
`\x7b name, nameUzbek, flagUrl, code \x7d` of script.js. -/
structure FlagEntry where
  name : Option String
  nameUzbek : Option String
  flagUrl : Option String
  code : Option String
deriving DecidableEq

/-- The translation table of translateToUzbek, in source order.  Keys are
the canonical English names, values the Uzbek (Latin) display names. -/
def uzbekTranslations : List (String × String) :=
  [("France", "Fransiya"),
   ("Japan", "Yaponiya"),
   ("Kazakhstan", "Qozog\x27iston"),
   ("Germany", "Germaniya"),
   ("United Kingdom", "Buyuk Britaniya"),
   ("United States", "Amerika Qo\x27shma Shtatlari"),
   ("Russia", "Rossiya"),
   ("China", "Xitoy"),
   ("India", "Hindiston"),
   ("Brazil", "Braziliya"),
   ("Italy", "Italiya"),
   ("Spain", "Ispaniya"),
   ("Canada", "Kanada"),
   ("Australia", "Avstraliya"),
   ("South Korea", "Janubiy Koreya"),
   ("Mexico", "Meksika"),
   ("Argentina", "Argentina"),
   ("Turkey", "Turkiya"),
   ("Poland", "Polsha"),
   ("Netherlands", "Niderlandiya"),
   ("Belgium", "Belgiya"),
   ("Sweden", "Shvetsiya"),
   ("Norway", "Norvegiya"),
   ("Denmark", "Daniya"),
   ("Finland", "Finlandiya"),
   ("Switzerland", "Shveytsariya"),
   ("Austria", "Avstriya"),
   ("Greece", "Gretsiya"),
   ("Portugal", "Portugaliya"),
   ("Egypt", "Misr"),
   ("South Africa", "Janubiy Afrika"),
   ("Nigeria", "Nigeriya"),
   ("Kenya", "Keniya"),
   ("Morocco", "Marokash"),
   ("Algeria", "Jazoir"),
   ("Tunisia", "Tunis"),
   ("Saudi Arabia", "Saudiya Arabistoni"),
   ("Iran", "Eron"),
   ("Iraq", "Iroq"),
   ("Israel", "Isroil"),
   ("Pakistan", "Pokiston"),
   ("Bangladesh", "Bangladesh"),
   ("Indonesia", "Indoneziya"),
   ("Thailand", "Tailand"),
   ("Vietnam", "Vyetnam"),
   ("Philippines", "Filippin"),
   ("Malaysia", "Malayziya"),
   ("Singapore", "Singapur"),
   ("New Zealand", "Yangi Zelandiya"),
   ("Chile", "Chili"),
   ("Colombia", "Kolumbiya"),
   ("Peru", "Peru"),
   ("Venezuela", "Venesuela"),
   ("Ukraine", "Ukraina"),
   ("Romania", "Ruminiya"),
   ("Czech Republic", "Chexiya"),
   ("Hungary", "Vengriya"),
   ("Ireland", "Irlandiya"),
   ("Croatia", "Xorvatiya"),
   ("Serbia", "Serbiya"),
   ("Bulgaria", "Bolgariya"),
   ("Uzbekistan", "O\x27zbekiston")]

/-- translateToUzbek of script.js: `translations[countryName] || countryName`.
The || applies JavaScript truthiness to the looked-up value, so an empty
translation string would also fall back to the argument. -/
def translateToUzbek (countryName : String) : String :=
  match uzbekTranslations.lookup countryName with
  | some t => if t = "" then countryName else t
  | none => countryName

/-- Lift of translateToUzbek to a possibly-undefined (or non-string) name:
translating a non-string value never produces a string display name. -/
def translateOpt (n : Option String) : Option String :=
  n.map translateToUzbek

/-- The allow-list of filterPopularCountries, in source order. -/
def popularCountryNames : List String :=
  ["France", "Germany", "Italy", "Spain", "United Kingdom", "Netherlands",
   "Belgium", "Switzerland", "Austria", "Sweden", "Norway", "Denmark",
   "Finland", "Poland", "Greece", "Portugal", "Ireland", "Czech Republic",
   "Hungary", "Romania", "Croatia", "Serbia", "Bulgaria", "Ukraine",
   "Russia", "Turkey",
   "United States", "Canada", "Mexico", "Brazil", "Argentina", "Chile",
   "Colombia", "Peru", "Venezuela",
   "China", "Japan", "India", "South Korea", "Indonesia", "Thailand",
   "Vietnam", "Philippines", "Malaysia", "Singapore", "Pakistan",
   "Bangladesh", "Saudi Arabia", "Iran", "Iraq", "Uzbekistan",
   "Kazakhstan",
   "Australia", "New Zealand", "South Africa", "Egypt", "Nigeria"]

/-- The predicate of filterPopularCountries:
`popularCountryNames.includes(country.name)`.  A record whose name is
undefined or not a string matches no element of the list. -/
def isPopular (e : FlagEntry) : Bool :=
  match e.name with
  | some n => popularCountryNames.contains n
  | none => false

/-- filterPopularCountries of script.js. -/
def filterPopularCountries (allCountries : List FlagEntry) : List FlagEntry :=
  allCountries.filter isPopular

/-- The `flags` sub-object of a country record: svg and png addresses,
each possibly absent. -/
structure FlagsField where
  svg : Option String := none
  png : Option String := none
deriving DecidableEq

/-- The `name` field of a REST-countries-style record: absent, a plain
string, or an object carrying a `common` sub-field. -/
inductive NameField
  | absent
  | strVal (s : String)
  | objVal (common : Option String)
deriving DecidableEq

/-- Resolution `country.name?.common || country.name` used by the v3
parser.  When the name is an object without a truthy `common`, the ||
yields the object itself, a non-string value, modelled as none. -/
def resolveNameV3 : NameField → Option String
  | .absent => none
  | .strVal s => some s
  | .objVal common => if strTruthy common then common else none

/-- A record of the REST Countries v3 response, restricted to the fields
the parser reads. -/
structure CountryV3 where
  name : NameField := .absent
  flags : Option FlagsField := none
  cca2 : Option String := none
deriving DecidableEq

/-- parseRestCountriesV3 of script.js.  The argument is none when the
response body is not an array (`Array.isArray` fails, the parser returns
null). -/
def parseRestCountriesV3 (data : Option (List CountryV3)) :
    Option (List FlagEntry) :=
  match data with
  | none => none
  | some arr =>
    let allFlags :=
      (arr.filter fun c =>
          c.flags.isSome &&
            (strTruthy (c.flags.bind FlagsField.svg) ||
              strTruthy (c.flags.bind FlagsField.png))).map
        fun c =>
          { name := resolveNameV3 c.name
            nameUzbek := translateOpt (resolveNameV3 c.name)
            flagUrl := jsOrStr (c.flags.bind FlagsField.svg)
              (c.flags.bind FlagsField.png)
            code := c.cca2 : FlagEntry }
    some (filterPopularCountries allFlags)

/-- A record of the REST Countries v2 response: the name is a plain
string field. -/
structure CountryV2 where
  name : Option String := none
  flags : Option FlagsField := none
  alpha2Code : Option String := none
deriving DecidableEq

/-- parseRestCountriesV2 of script.js. -/
def parseRestCountriesV2 (data : Option (List CountryV2)) :
    Option (List FlagEntry) :=
  match data with
  | none => none
  | some arr =>
    let allFlags :=
      (arr.filter fun c =>
          c.flags.isSome &&
            (strTruthy (c.flags.bind FlagsField.svg) ||
              strTruthy (c.flags.bind FlagsField.png))).map
        fun c =>
          { name := c.name
            nameUzbek := translateOpt c.name
            flagUrl := jsOrStr (c.flags.bind FlagsField.svg)
              (c.flags.bind FlagsField.png)
            code := c.alpha2Code : FlagEntry }
    some (filterPopularCountries allFlags)

/-- A record of the Next.js countries response, with the four candidate
flag fields and three candidate code fields the parser consults. -/
structure CountryNJ where
  flag : Option String := none
  flags : Option FlagsField := none
  flagUrl : Option String := none
  flagSvg : Option String := none
  name : NameField := .absent
  nameCommon : Option String := none
  cca2 : Option String := none
  alpha2Code : Option String := none
  code : Option String := none
deriving DecidableEq

/-- A field expected to hold an array: absent (or falsy), present but not
an array, or an array of records. -/
inductive NJListField
  | missing
  | nonArray
  | arr (cs : List CountryNJ)
deriving DecidableEq

/-- The Next.js response document.  `pageProps` is the countries field of
the pageProps object when that object exists; `selfArray` is some when
the document itself is an array; `dataField` is the `data` property. -/
structure NextJsData where
  pageProps : Option NJListField := none
  selfArray : Option (List CountryNJ) := none
  dataField : NJListField := .missing
deriving DecidableEq

/-- The countries-extraction cascade of parseNextJsCountries:
pageProps.countries when truthy, else the document itself when it is an
array, else data when it is an array; followed by the final
`!countries || !Array.isArray(countries)` check that returns null for a
truthy non-array countries value. -/
def njSelect (d : NextJsData) : Option (List CountryNJ) :=
  match d.pageProps with
  | some (.arr cs) => some cs
  | some .nonArray => none
  | _ =>
    match d.selfArray with
    | some cs => some cs
    | none =>
      match d.dataField with
      | .arr cs => some cs
      | _ => none

/-- The image filter of parseNextJsCountries:
`country.flag || country.flags || country.flagUrl || country.flagSvg`.
Mind that `country.flags` is an object, truthy as soon as it is present,
even when it carries neither svg nor png. -/
def njHasFlagField (c : CountryNJ) : Bool :=
  strTruthy c.flag || c.flags.isSome || strTruthy c.flagUrl ||
    strTruthy c.flagSvg

/-- The flag-address chain of parseNextJsCountries:
`country.flag || country.flags?.svg || country.flags?.png ||
country.flagUrl || country.flagSvg`. -/
def njFlagUrl (c : CountryNJ) : Option String :=
  jsOrStr c.flag
    (jsOrStr (c.flags.bind FlagsField.svg)
      (jsOrStr (c.flags.bind FlagsField.png)
        (jsOrStr c.flagUrl c.flagSvg)))

/-- The name chain of parseNextJsCountries:
`country.name?.common || country.name || country.nameCommon`.  A name
object without truthy common is itself truthy and stops the chain with a
non-string value, modelled as none. -/
def njName (c : CountryNJ) : Option String :=
  match c.name with
  | .absent => c.nameCommon
  | .strVal s => if s = "" then c.nameCommon else some s
  | .objVal common => if strTruthy common then common else none

/-- The code chain of parseNextJsCountries:
`country.cca2 || country.alpha2Code || country.code`. -/
def njCode (c : CountryNJ) : Option String :=
  jsOrStr c.cca2 (jsOrStr c.alpha2Code c.code)

/-- parseNextJsCountries of script.js. -/
def parseNextJsCountries (data : NextJsData) : Option (List FlagEntry) :=
  match njSelect data with
  | none => none
  | some countries =>
    let allFlags :=
      (countries.filter njHasFlagField).map fun c =>
        { name := njName c
          nameUzbek := translateOpt (njName c)
          flagUrl := njFlagUrl c
          code := njCode c : FlagEntry }
    some (filterPopularCountries allFlags)

/-- What one iteration of the loadFlags loop observes for one endpoint:
the fetch (or response.json()) rejects, the response status is not ok, or
a body arrives.  For a body, `errorShaped` is the check
`status === 400 || message === "Not Found" || _embedded?.errors`,
`message` is the message field used in the thrown error, and `parsed` is
what this endpoint parser returned on the body (none when the parser
returned null for an unrecognized shape). -/
inductive FetchOutcome
  | netThrow (msg : String)
  | httpErr (status : Nat)
  | ok (errorShaped : Bool) (message : Option String)
      (parsed : Option (List FlagEntry))
deriving DecidableEq

/-- The message of the error thrown inside the try block for this
endpoint, when one is thrown: `HTTP ${status}` for a non-ok response,
`responseData.message || "API error"` for an error-shaped body, the
rejection message for a network/JSON failure. -/
def errMsgOf : FetchOutcome → Option String
  | .netThrow m => some m
  | .httpErr status => some ("HTTP " ++ toString status)
  | .ok errorShaped msg _ => if errorShaped then some (msg.getD "API error") else none

/-- The non-empty parsed list for this endpoint, when the iteration
reaches `flags && flags.length > 0` with a positive answer. -/
def okFlags : FetchOutcome → Option (List FlagEntry)
  | .ok false _ (some fl) => if fl.length > 0 then some fl else none
  | _ => none

/-- Accumulated observable effects of the loadFlags loop: the `flags`
local (set at the break), the `lastError` local, how many endpoints were
queried, and the console.warn messages in order. -/
structure LoadLoopState where
  flags : Option (List FlagEntry) := none
  lastError : Option String := none
  queried : Nat := 0
  warnings : List String := []
deriving DecidableEq

/-- The `for (const endpoint of apiEndpoints)` loop of loadFlags.  A
thrown error is caught, warned and recorded in lastError; a parser result
that is null or empty falls through to the next endpoint with no warning
and no lastError update; a non-empty result sets flags and breaks. -/
def tryEndpoints : List FetchOutcome → LoadLoopState → LoadLoopState
  | [], acc => acc
  | src :: rest, acc =>
    let acc1 := { acc with queried := acc.queried + 1 }
    match errMsgOf src with
    | some m =>
      tryEndpoints rest
        { acc1 with warnings := acc1.warnings ++ [m], lastError := some m }
    | none =>
      match okFlags src with
      | some fl => { acc1 with flags := some fl }
      | none => tryEndpoints rest acc1

/-- The value loadFlags delivers: the loaded list on success, otherwise
the error thrown by `throw lastError || new Error("All API endpoints
failed")`. -/
def loadOutcome (sources : List FetchOutcome) :
    Except String (List FlagEntry) :=
  let res := tryEndpoints sources {}
  match res.flags with
  | some fl =>
    if fl.length = 0 then .error (res.lastError.getD "All API endpoints failed")
    else .ok fl
  | none => .error (res.lastError.getD "All API endpoints failed")

/-- The last error thrown over the whole endpoint sequence, as loadFlags
tracks it in the `lastError` local. -/
def lastErrorOf (sources : List FetchOutcome) : Option String :=
  sources.foldl
    (fun acc src =>
      match errMsgOf src with
      | some m => some m
      | none => acc)
    none

/-- The game state: the fields of the FlagGame object the specified core
reads or writes, together with the observable DOM/timer effects.
`countdownCount` is the `count` variable captured by the countdown
interval closure; `pendingShuffle` and `pendingReveal` record that a
shuffle timeline or a reveal animation is running and its completion
callback has not fired yet; `countdownShown` is the history of strings
assigned to the countdown display. -/
structure GameState where
  flags : List FlagEntry := []
  isLoading : Bool := false
  isAnimating : Bool := false
  isShuffling : Bool := false
  currentFlag : Option FlagEntry := none
  countdownActive : Bool := false
  countdownCount : Int := 0
  pendingShuffle : Bool := false
  pendingReveal : Bool := false
  startScreenHidden : Bool := false
  loadingScreenActive : Bool := false
  gameScreenActive : Bool := false
  countdownVisible : Bool := false
  countdownText : String := ""
  countdownShown : List String := []
  countryNameVisible : Bool := false
  countryNameText : Option String := none
  flagImageSrc : Option String := none
  flagImageVisible : Bool := false
  shuffleIndicatorActive : Bool := false
  infoVisible : Bool := false
  alertShown : Bool := false
deriving DecidableEq

/-- Math.random modelled as a stream of rationals in [0, 1); index i is
the value of the i-th call within one playRound invocation. -/
def RandStream : Type := Nat → ℚ

/-- `Math.floor(r * n)` as the index into the working set. -/
def randFlagIndex (r : ℚ) (n : Nat) : Nat := (⌊r * (n : ℚ)⌋).toNat

/-- `0.7 + Math.random() * 0.3`, the shuffle duration in seconds. -/
def shuffleDurationOf (r : ℚ) : ℚ := 7/10 + r * (3/10)

/-- `10 + Math.floor(Math.random() * 6)`, the number of shuffle steps. -/
def shuffleCountOf (r : ℚ) : Nat := 10 + (⌊r * 6⌋).toNat

/-- The decorative flags shown by the shuffle timeline: step i displays
`this.flags[Math.floor(Math.random() * this.flags.length)]`, drawn from
stream position 2 + i (positions 0 and 1 are the duration and the count). -/
def shuffleShownFlags (rand : RandStream) (flags : List FlagEntry)
    (count : Nat) : List (Option FlagEntry) :=
  (List.range count).map fun i =>
    flags.get? (randFlagIndex (rand (2 + i)) flags.length)

/-- One whole shuffle sequence followed by the final selection of
playRound: duration, step count, the entries displayed during shuffling,
and the final `this.flags[Math.floor(Math.random() * this.flags.length)]`
drawn from the fresh stream position after every shuffle draw. -/
def shuffleFlagsRun (rand : RandStream) (flags : List FlagEntry) :
    ℚ × Nat × List (Option FlagEntry) × Option FlagEntry :=
  let dur := shuffleDurationOf (rand 0)
  let cnt := shuffleCountOf (rand 1)
  (dur, cnt, shuffleShownFlags rand flags cnt,
    flags.get? (randFlagIndex (rand (2 + cnt)) flags.length))

/-- playRound up to the await of shuffleFlags: the mutual-exclusion guard
`if (this.isShuffling || this.isAnimating) return;`, then the locks, the
screen/countdown/name resets and the start of the shuffle timeline. -/
def playRound (s : GameState) : GameState :=
  if s.isShuffling || s.isAnimating then s
  else
    { s with isShuffling := true, isAnimating := true,
             gameScreenActive := true,
             countdownVisible := true,
             countdownText := "1",
             countdownShown := s.countdownShown ++ ["1"],
             countryNameVisible := false,
             countryNameText := some "",
             infoVisible := true,
             shuffleIndicatorActive := true,
             pendingShuffle := true }

/-- The continuation of playRound after the shuffle timeline resolves:
select the final random flag, set the image source, hide the shuffle
indicator and start the reveal animation.  When the working set is empty
the indexing yields undefined and the subsequent property read throws, so
only the currentFlag assignment is observed. -/
def finishShuffle (s : GameState) (r : ℚ) : GameState :=
  if s.pendingShuffle = false then s
  else
    match s.flags.get? (randFlagIndex r s.flags.length) with
    | some f =>
      { s with pendingShuffle := false, currentFlag := some f,
               flagImageSrc := f.flagUrl, shuffleIndicatorActive := false,
               pendingReveal := true }
    | none => { s with pendingShuffle := false, currentFlag := none }

/-- startCountdown of script.js: release isShuffling, set count to 1,
display it and register the interval. -/
def startCountdown (s : GameState) : GameState :=
  { s with isShuffling := false,
           countdownCount := 1,
           countdownVisible := true,
           countdownText := "1",
           countdownShown := s.countdownShown ++ ["1"],
           countryNameVisible := false,
           countdownActive := true }

/-- The onComplete of the reveal animation inside playRound: mark the
flag visible and run startCountdown. -/
def finishReveal (s : GameState) : GameState :=
  if s.pendingReveal = false then s
  else startCountdown { s with pendingReveal := false, flagImageVisible := true }

/-- showCountryName of script.js: the `if (!this.currentFlag) return;`
guard, then the localized name display and the release of isAnimating. -/
def showCountryName (s : GameState) : GameState :=
  match s.currentFlag with
  | none => s
  | some f =>
    { s with countryNameText := f.nameUzbek, countryNameVisible := true,
             isAnimating := false }

/-- One firing of the countdown interval.  A cleared interval no longer
fires, hence the identity when countdownActive is false.  Otherwise the
closure decrements count; a positive count is displayed, a non-positive
one clears the interval, hides the countdown and runs showCountryName. -/
def countdownTick (s : GameState) : GameState :=
  if s.countdownActive = false then s
  else
    let count := s.countdownCount - 1
    if count > 0 then
      { s with countdownCount := count,
               countdownText := toString count,
               countdownShown := s.countdownShown ++ [toString count] }
    else
      showCountryName
        { s with countdownCount := count, countdownActive := false,
                 countdownVisible := false }

/-- resetForNextRound of script.js.  The function is declared in the
source but has no caller: no event of the game ever invokes it. -/
def resetForNextRound (s : GameState) : GameState :=
  { s with countryNameVisible := false, countryNameText := some "",
           flagImageSrc := some "", flagImageVisible := false,
           isAnimating := false }

/-- loadFlags of script.js as a state transformer: the loading screen and
isLoading, the endpoint loop, then either the success continuation (store
the flags, hide the loading screen and play a round) or the catch block
(alert, clear isLoading, restore the start screen). -/
def loadFlags (s : GameState) (sources : List FetchOutcome) : GameState :=
  let s1 := { s with isLoading := true, loadingScreenActive := true }
  let res := tryEndpoints sources {}
  match res.flags with
  | some fl =>
    if fl.length = 0 then
      { s1 with alertShown := true, isLoading := false,
                loadingScreenActive := false, startScreenHidden := false }
    else
      playRound { s1 with flags := fl, loadingScreenActive := false,
                          isLoading := false }
  | none =>
    { s1 with alertShown := true, isLoading := false,
              loadingScreenActive := false, startScreenHidden := false }

/-- startGame of script.js: the `isAnimating || isShuffling || isLoading`
guard, hiding the start screen, then loadFlags when the working set is
empty and playRound otherwise. -/
def startGame (s : GameState) (sources : List FetchOutcome) : GameState :=
  if s.isAnimating || s.isShuffling || s.isLoading then s
  else
    let s1 := { s with startScreenHidden := true }
    if s1.flags.length = 0 then loadFlags s1 sources
    else playRound s1

/-- The keydown handler for Enter: with the start screen hidden it plays
a round when isShuffling is clear, otherwise it falls through to
startGame. -/
def handleEnterKey (s : GameState) (sources : List FetchOutcome) :
    GameState :=
  if s.startScreenHidden then
    if s.isShuffling = false then playRound s else s
  else startGame s sources

/-- The events that can fire on the game: the two user entry points, the
two animation completion callbacks and the countdown interval.  The user
events carry the network environment the load would observe. -/
inductive GameEvent
  | enterKey (sources : List FetchOutcome)
  | buttonClick (sources : List FetchOutcome)
  | shuffleComplete (r : ℚ)
  | revealComplete
  | tick

/-- Dispatch of one event to its handler. -/
def stepEvent (s : GameState) : GameEvent → GameState
  | .enterKey sources => handleEnterKey s sources
  | .buttonClick sources => startGame s sources
  | .shuffleComplete r => finishShuffle s r
  | .revealComplete => finishReveal s
  | .tick => countdownTick s

/-- Run a sequence of events. -/
def runEvents (s : GameState) (evs : List GameEvent) : GameState :=
  evs.foldl stepEvent s

/-- The start-round requests among the events: the Enter key and the
button click. -/
def isStartRequest : GameEvent → Bool
  | .enterKey _ => true
  | .buttonClick _ => true
  | _ => false

/-- A state with no animation callback and no interval pending: nothing
is scheduled, only a user event can change the state. -/
def quiescent (s : GameState) : Prop :=
  s.pendingShuffle = false ∧ s.pendingReveal = false ∧
    s.countdownActive = false

/-- A sample working-set entry used by concrete scenarios. -/
def frEntry : FlagEntry :=
  { name := some "France", nameUzbek := some "Fransiya",
    flagUrl := some "x.svg", code := some "FR" }

theorem playRound_locked (s : GameState)
    (h : s.isShuffling = true ∨ s.isAnimating = true) : playRound s = s := by
  unfold playRound
  rcases h with h | h <;> simp [h]

theorem startGame_locked (s : GameState) (sources : List FetchOutcome)
    (h : s.isShuffling = true ∨ s.isAnimating = true) :
    startGame s sources = s := by
  unfold startGame
  rcases h with h | h <;> simp [h]

theorem handleEnterKey_locked (s : GameState) (sources : List FetchOutcome)
    (h : s.isShuffling = true ∨ s.isAnimating = true) :
    handleEnterKey s sources = s := by
  unfold handleEnterKey
  by_cases hs : s.startScreenHidden = true
  · rcases h with h | h
    · simp [hs, h]
    · by_cases h2 : s.isShuffling = false
      · simp [hs, h2, playRound_locked s (Or.inr h)]
      · simp [hs, h2]
  · simp at hs
    simp [hs, startGame_locked s sources h]

theorem stepEvent_quiescent (s : GameState) (e : GameEvent)
    (hq : quiescent s) (he : isStartRequest e = false) : stepEvent s e = s := by
  obtain ⟨h1, h2, h3⟩ := hq
  cases e with
  | enterKey sources => simp [isStartRequest] at he
  | buttonClick sources => simp [isStartRequest] at he
  | shuffleComplete r => simp [stepEvent, finishShuffle, h1]
  | revealComplete => simp [stepEvent, finishReveal, h2]
  | tick => simp [stepEvent, countdownTick, h3]

theorem runEvents_quiescent (s : GameState) (evs : List GameEvent)
    (hq : quiescent s) (he : ∀ e ∈ evs, isStartRequest e = false) :
    runEvents s evs = s := by
  induction evs with
  | nil => rfl
  | cons e rest ih =>
    have hstep : stepEvent s e = s :=
      stepEvent_quiescent s e hq (he e (List.mem_cons_self e rest))
    show (e :: rest).foldl stepEvent s = s
    rw [List.foldl_cons, hstep]
    exact ih fun x hx => he x (List.mem_cons_of_mem e hx)

theorem stepEvent_locked_start (s : GameState) (e : GameEvent)
    (hA : s.isAnimating = true) (he : isStartRequest e = true) :
    stepEvent s e = s := by
  cases e with
  | enterKey sources => exact handleEnterKey_locked s sources (Or.inr hA)
  | buttonClick sources => exact startGame_locked s sources (Or.inr hA)
  | shuffleComplete r => simp [isStartRequest] at he
  | revealComplete => simp [isStartRequest] at he
  | tick => simp [isStartRequest] at he

theorem runEvents_locked_start (s : GameState) (evs : List GameEvent)
    (hA : s.isAnimating = true) (he : ∀ e ∈ evs, isStartRequest e = true) :
    runEvents s evs = s := by
  induction evs with
  | nil => rfl
  | cons e rest ih =>
    have hstep : stepEvent s e = s :=
      stepEvent_locked_start s e hA (he e (List.mem_cons_self e rest))
    show (e :: rest).foldl stepEvent s = s
    rw [List.foldl_cons, hstep]
    exact ih fun x hx => he x (List.mem_cons_of_mem e hx)

theorem lookup_val_not_empty (l : List (String × String))
    (hl : l.all (fun p => p.2 != "") = true)
    (s t : String) (h : l.lookup s = some t) : t ≠ "" := by
  induction l with
  | nil => simp [List.lookup] at h
  | cons p rest ih =>
    obtain ⟨k, v⟩ := p
    simp only [List.all_cons, Bool.and_eq_true, bne_iff_ne, ne_eq] at hl
    by_cases hsk : (s == k) = true
    · simp [List.lookup, hsk] at h
      subst h
      exact hl.1
    · simp only [Bool.not_eq_true] at hsk
      simp [List.lookup, hsk] at h
      exact ih (by simpa using hl.2) h

theorem uzbek_values_nonempty :
    uzbekTranslations.all (fun p => p.2 != "") = true := by decide

/-- C2: while the mutual-exclusion lock is held (isShuffling or
isAnimating), a start-round request has no effect: a direct playRound
call, the Enter-key handler and the button path (startGame) all leave the
whole game state unchanged, so no timer, animation or state mutation is
started. -/
theorem c2_locked_start_is_no_op (s : GameState) (sources : List FetchOutcome)
    (h : s.isShuffling = true ∨ s.isAnimating = true) :
    playRound s = s ∧ handleEnterKey s sources = s ∧ startGame s sources = s :=
  ⟨playRound_locked s h, handleEnterKey_locked s sources h,
    startGame_locked s sources h⟩

/-- A locked state: a round is shuffling. -/
def lockedState : GameState :=
  { flags := [frEntry], isShuffling := true, isAnimating := true,
    startScreenHidden := true, pendingShuffle := true }

/-- Witness for C2 at a concrete locked state. -/
theorem c2_witness :
    (lockedState.isShuffling = true ∨ lockedState.isAnimating = true) ∧
    (playRound lockedState = lockedState ∧
      handleEnterKey lockedState [] = lockedState ∧
      startGame lockedState [] = lockedState) :=
  ⟨Or.inl rfl, c2_locked_start_is_no_op lockedState [] (Or.inl rfl)⟩

/-- C10: when showCountryName runs with currentFlag null it returns at
once, leaving the state (including the isAnimating lock) unchanged; and
as long as isAnimating stays set, every later start-round request, alone
or in sequence, is a no-op. -/
theorem c10_null_flag_keeps_lock (s : GameState) (h : s.currentFlag = none) :
    showCountryName s = s ∧
    (s.isAnimating = true →
      playRound s = s ∧
        ∀ evs : List GameEvent, (∀ e ∈ evs, isStartRequest e = true) →
          runEvents s evs = s) := by
  constructor
  · simp [showCountryName, h]
  · intro hA
    exact ⟨playRound_locked s (Or.inr hA),
      fun evs he => runEvents_locked_start s evs hA he⟩

/-- A state that reaches showCountryName with no current flag while the
animation lock is held. -/
def lockedNoFlagState : GameState :=
  { flags := [frEntry], isAnimating := true, startScreenHidden := true }

/-- Witness for C10 at a concrete state. -/
theorem c10_witness :
    lockedNoFlagState.currentFlag = none ∧
    (showCountryName lockedNoFlagState = lockedNoFlagState ∧
      (lockedNoFlagState.isAnimating = true →
        playRound lockedNoFlagState = lockedNoFlagState ∧
          ∀ evs : List GameEvent, (∀ e ∈ evs, isStartRequest e = true) →
            runEvents lockedNoFlagState evs = lockedNoFlagState)) :=
  ⟨rfl, c10_null_flag_keeps_lock lockedNoFlagState rfl⟩

/-- C8: translateToUzbek is exactly the fixed-table lookup with identity
fallback, and every entry built by any of the three parsers carries
nameUzbek equal to translateToUzbek of its name. -/
theorem c8_translation_lookup_with_fallback :
    (∀ s : String,
        translateToUzbek s = (uzbekTranslations.lookup s).getD s) ∧
    (∀ (d : Option (List CountryV3)) (e : FlagEntry),
        e ∈ (parseRestCountriesV3 d).getD [] →
          e.nameUzbek = e.name.map translateToUzbek) ∧
    (∀ (d : Option (List CountryV2)) (e : FlagEntry),
        e ∈ (parseRestCountriesV2 d).getD [] →
          e.nameUzbek = e.name.map translateToUzbek) ∧
    (∀ (d : NextJsData) (e : FlagEntry),
        e ∈ (parseNextJsCountries d).getD [] →
          e.nameUzbek = e.name.map translateToUzbek) := by
  refine ⟨?_, ?_, ?_, ?_⟩
  · intro s
    unfold translateToUzbek
    cases h : uzbekTranslations.lookup s with
    | none => simp
    | some t =>
      have ht : t ≠ "" := lookup_val_not_empty _ uzbek_values_nonempty s t h
      simp [ht]
  · intro d e he
    cases d with
    | none => simp [parseRestCountriesV3] at he
    | some arr =>
      simp only [parseRestCountriesV3, filterPopularCountries, Option.getD_some,
        List.mem_filter, List.mem_map] at he
      obtain ⟨⟨c, hc, rfl⟩, _⟩ := he
      rfl
  · intro d e he
    cases d with
    | none => simp [parseRestCountriesV2] at he
    | some arr =>
      simp only [parseRestCountriesV2, filterPopularCountries, Option.getD_some,
        List.mem_filter, List.mem_map] at he
      obtain ⟨⟨c, hc, rfl⟩, _⟩ := he
      rfl
  · intro d e he
    cases hsel : njSelect d with
    | none => simp [parseNextJsCountries, hsel] at he
    | some countries =>
      simp only [parseNextJsCountries, hsel, filterPopularCountries,
        Option.getD_some, List.mem_filter, List.mem_map] at he
      obtain ⟨⟨c, hc, rfl⟩, _⟩ := he
      rfl

/-- Witness for C8 at a concrete parsed dataset. -/
theorem c8_witness :
    frEntry ∈ (parseRestCountriesV2
        (some [{ name := some "France",
                 flags := some { svg := some "x.svg" },
                 alpha2Code := some "FR" }])).getD [] ∧
    frEntry.nameUzbek = frEntry.name.map translateToUzbek :=
  ⟨by decide,
    c8_translation_lookup_with_fallback.2.2.1
      (some [{ name := some "France", flags := some { svg := some "x.svg" },
               alpha2Code := some "FR" }]) frEntry (by decide)⟩

theorem popular_keys_translated :
    popularCountryNames.all
      (fun n => (uzbekTranslations.lookup n).isSome) = true := by decide

/-- C9: every allow-listed name is a key of the translation table, so for
any entry that can reach the working set the identity fallback of
translateToUzbek is never exercised: the lookup succeeds and its value is
what translateToUzbek returns. -/
theorem c9_allow_list_subset_table (n : String)
    (h : n ∈ popularCountryNames) :
    ∃ t, uzbekTranslations.lookup n = some t ∧ translateToUzbek n = t := by
  have hs : (uzbekTranslations.lookup n).isSome = true := by
    have hall := popular_keys_translated
    rw [List.all_eq_true] at hall
    exact hall n h
  obtain ⟨t, ht⟩ := Option.isSome_iff_exists.mp hs
  refine ⟨t, ht, ?_⟩
  unfold translateToUzbek
  rw [ht]
  simp [lookup_val_not_empty _ uzbek_values_nonempty n t ht]

/-- Witness for C9 at a concrete allow-listed name. -/
theorem c9_witness :
    "Uzbekistan" ∈ popularCountryNames ∧
    ∃ t, uzbekTranslations.lookup "Uzbekistan" = some t ∧
      translateToUzbek "Uzbekistan" = t :=
  ⟨by decide, c9_allow_list_subset_table "Uzbekistan" (by decide)⟩

theorem strTruthy_jsOrStr (a b : Option String)
    (h : strTruthy a = true ∨ strTruthy b = true) :
    strTruthy (jsOrStr a b) = true := by
  unfold jsOrStr
  rcases h with h | h
  · simp [h]
  · by_cases ha : strTruthy a = true <;> simp [ha, h]

/-- C1 as amended: every entry any parser hands to the working set has a
name on the allow-list; the v3 and v2 parsers moreover guarantee a truthy
(present, non-empty) flagUrl because their image filter requires a truthy
flags.svg or flags.png; parseNextJsCountries does not give that guarantee
(its filter also passes a record whose flags object lacks both
addresses). -/
theorem c1_amended :
    (∀ (d : Option (List CountryV3)) (e : FlagEntry),
        e ∈ (parseRestCountriesV3 d).getD [] →
          strTruthy e.flagUrl = true ∧ isPopular e = true) ∧
    (∀ (d : Option (List CountryV2)) (e : FlagEntry),
        e ∈ (parseRestCountriesV2 d).getD [] →
          strTruthy e.flagUrl = true ∧ isPopular e = true) ∧
    (∀ (d : NextJsData) (e : FlagEntry),
        e ∈ (parseNextJsCountries d).getD [] → isPopular e = true) := by
  refine ⟨?_, ?_, ?_⟩
  · intro d e he
    cases d with
    | none => simp [parseRestCountriesV3] at he
    | some arr =>
      simp only [parseRestCountriesV3, filterPopularCountries, Option.getD_some,
        List.mem_filter, List.mem_map] at he
      obtain ⟨⟨c, hc, rfl⟩, hpop⟩ := he
      refine ⟨?_, hpop⟩
      have himg := hc.2
      simp only [Bool.and_eq_true, Bool.or_eq_true] at himg
      exact strTruthy_jsOrStr _ _ himg.2
  · intro d e he
    cases d with
    | none => simp [parseRestCountriesV2] at he
    | some arr =>
      simp only [parseRestCountriesV2, filterPopularCountries, Option.getD_some,
        List.mem_filter, List.mem_map] at he
      obtain ⟨⟨c, hc, rfl⟩, hpop⟩ := he
      refine ⟨?_, hpop⟩
      have himg := hc.2
      simp only [Bool.and_eq_true, Bool.or_eq_true] at himg
      exact strTruthy_jsOrStr _ _ himg.2
  · intro d e he
    cases hsel : njSelect d with
    | none => simp [parseNextJsCountries, hsel] at he
    | some countries =>
      simp only [parseNextJsCountries, hsel, filterPopularCountries,
        Option.getD_some, List.mem_filter, List.mem_map] at he
      exact he.2

/-- A Next.js record whose flags object is present but carries neither
svg nor png: it passes the image filter of parseNextJsCountries although
it has no usable image address. -/
def njBadRecord : CountryNJ := { name := .strVal "France", flags := some {} }

/-- A response whose document is the array holding only that record. -/
def njBadData : NextJsData := { selfArray := some [njBadRecord] }

/-- The entry parseNextJsCountries builds from the bad record: an
allow-listed name with no image address at all. -/
def njBadEntry : FlagEntry :=
  { name := some "France", nameUzbek := some "Fransiya",
    flagUrl := none, code := none }

/-- Counterexample for C1 as stated: parseNextJsCountries keeps a record
without a usable image address, and the resulting entry, whose flagUrl is
undefined (none), lands in the cached working set this.flags when this
source is the one the loader accepts. -/
theorem c1_counterexample :
    parseNextJsCountries njBadData = some [njBadEntry] ∧
    njBadEntry.flagUrl = none ∧
    isPopular njBadEntry = true ∧
    (loadFlags {} [.ok false none (parseNextJsCountries njBadData)]).flags =
      [njBadEntry] := by
  refine ⟨by decide, rfl, by decide, by decide⟩

/-- Witness for the amended C1 at a concrete dataset for each parser. -/
theorem c1_witness :
    frEntry ∈ (parseRestCountriesV2
        (some [{ name := some "France",
                 flags := some { svg := some "x.svg" },
                 alpha2Code := some "FR" }])).getD [] ∧
    strTruthy frEntry.flagUrl = true ∧ isPopular frEntry = true :=
  ⟨by decide,
    c1_amended.2.1
      (some [{ name := some "France", flags := some { svg := some "x.svg" },
               alpha2Code := some "FR" }]) frEntry (by decide)⟩

/-- C5: the countdown starts at 1 and one tick moves the machine straight
to the name display: the interval is cleared, the countdown is hidden,
the selected entry's Uzbek name is shown, the isAnimating lock is
released, and the only value the counter ever displayed during the
countdown is the string 1 (never 0). -/
theorem c5_countdown_single_tick (s : GameState) (f : FlagEntry)
    (h : s.currentFlag = some f) :
    (startCountdown s).countdownCount = 1 ∧
    (startCountdown s).countdownText = "1" ∧
    countdownTick (startCountdown s) =
      { startCountdown s with
          countdownCount := 0, countdownActive := false,
          countdownVisible := false,
          countryNameText := f.nameUzbek, countryNameVisible := true,
          isAnimating := false } ∧
    (countdownTick (startCountdown s)).countdownShown =
      s.countdownShown ++ ["1"] := by
  have hstep :
      countdownTick (startCountdown s) =
        { startCountdown s with
            countdownCount := 0, countdownActive := false,
            countdownVisible := false,
            countryNameText := f.nameUzbek, countryNameVisible := true,
            isAnimating := false } := by
    simp [countdownTick, startCountdown, showCountryName, h]
  refine ⟨rfl, rfl, hstep, ?_⟩
  rw [hstep]
  rfl

/-- A state in which the reveal animation has completed for frEntry. -/
def revealedState : GameState :=
  { flags := [frEntry], currentFlag := some frEntry, isAnimating := true,
    isShuffling := true, startScreenHidden := true, gameScreenActive := true }

/-- Witness for C5 at a concrete revealed state. -/
theorem c5_witness :
    revealedState.currentFlag = some frEntry ∧
    ((startCountdown revealedState).countdownCount = 1 ∧
      (startCountdown revealedState).countdownText = "1" ∧
      countdownTick (startCountdown revealedState) =
        { startCountdown revealedState with
            countdownCount := 0, countdownActive := false,
            countdownVisible := false,
            countryNameText := frEntry.nameUzbek, countryNameVisible := true,
            isAnimating := false } ∧
      (countdownTick (startCountdown revealedState)).countdownShown =
        revealedState.countdownShown ++ ["1"]) :=
  ⟨rfl, c5_countdown_single_tick revealedState frEntry rfl⟩

/-- A resting state with the working set already loaded and the start
screen dismissed. -/
def loadedIdleState : GameState :=
  { flags := [frEntry], startScreenHidden := true }

/-- The state after one complete round from loadedIdleState: Enter starts
the round, the shuffle timeline completes (drawing the random value 0),
the reveal animation completes, and the single countdown tick fires. -/
def nameShownState : GameState :=
  runEvents loadedIdleState
    [.enterKey [], .shuffleComplete 0, .revealComplete, .tick]

/-- The same post-round state written out field by field. -/
def nameShownLit : GameState :=
  { flags := [frEntry], isLoading := false, isAnimating := false,
    isShuffling := false, currentFlag := some frEntry,
    countdownActive := false, countdownCount := 0,
    pendingShuffle := false, pendingReveal := false,
    startScreenHidden := true, loadingScreenActive := false,
    gameScreenActive := true, countdownVisible := false,
    countdownText := "1", countdownShown := ["1", "1"],
    countryNameVisible := true, countryNameText := some "Fransiya",
    flagImageSrc := some "x.svg", flagImageVisible := true,
    shuffleIndicatorActive := false, infoVisible := true,
    alertShown := false }

theorem randFlagIndex_zero_one : randFlagIndex 0 1 = 0 := by
  unfold randFlagIndex
  norm_num

theorem finishShuffle_sel (s : GameState) (r : ℚ) (f : FlagEntry)
    (hp : s.pendingShuffle = true)
    (hget : s.flags.get? (randFlagIndex r s.flags.length) = some f) :
    finishShuffle s r =
      { s with pendingShuffle := false, currentFlag := some f,
               flagImageSrc := f.flagUrl, shuffleIndicatorActive := false,
               pendingReveal := true } := by
  unfold finishShuffle
  rw [hp, hget]
  simp

theorem nameShownState_eq : nameShownState = nameShownLit := by
  show countdownTick (finishReveal
    (finishShuffle (handleEnterKey loadedIdleState []) 0)) = nameShownLit
  rw [finishShuffle_sel (handleEnterKey loadedIdleState []) 0 frEntry rfl
    (by rw [show (handleEnterKey loadedIdleState []).flags = [frEntry] from rfl,
            show ([frEntry] : List FlagEntry).length = 1 from rfl,
            randFlagIndex_zero_one]
        rfl)]
  rfl

/-- Counterexample for C6 as stated: after a round reaches the name
display, the name stays visible and the selected entry stays set; no
sequence of events free of start-round requests can clear the selected
entry or hide the name, because nothing is scheduled any more and
resetForNextRound has no caller.  The round therefore does not return to
the resting state automatically. -/
theorem c6_counterexample :
    nameShownState.countryNameVisible = true ∧
    nameShownState.currentFlag = some frEntry ∧
    nameShownState.isAnimating = false ∧
    ¬ ∃ evs : List GameEvent,
        (∀ e ∈ evs, isStartRequest e = false) ∧
        ((runEvents nameShownState evs).currentFlag = none ∨
          (runEvents nameShownState evs).countryNameVisible = false) := by
  refine ⟨by rw [nameShownState_eq]; rfl, by rw [nameShownState_eq]; rfl,
    by rw [nameShownState_eq]; rfl, ?_⟩
  rintro ⟨evs, hne, hbad⟩
  have hq : quiescent nameShownState := by
    rw [nameShownState_eq]
    exact ⟨rfl, rfl, rfl⟩
  rw [runEvents_quiescent _ _ hq hne, nameShownState_eq] at hbad
  rcases hbad with hbad | hbad <;> simp [nameShownLit, frEntry] at hbad

/-- C6 as amended: the game never leaves the name display on its own.  In
any state with nothing scheduled (no pending shuffle timeline, no pending
reveal animation, no registered interval), every sequence of events that
contains no start-round request leaves the state exactly as it is: the
displayed name and selectedEntry persist until the next start-round
request.  resetForNextRound exists in the source but no event invokes
it. -/
theorem c6_amended (s : GameState) (evs : List GameEvent)
    (hq : quiescent s) (hne : ∀ e ∈ evs, isStartRequest e = false) :
    runEvents s evs = s :=
  runEvents_quiescent s evs hq hne

/-- Witness for the amended C6 at the concrete post-round state. -/
theorem c6_witness :
    quiescent nameShownState ∧
    (∀ e ∈ ([.tick, .revealComplete, .shuffleComplete 0] :
        List GameEvent), isStartRequest e = false) ∧
    runEvents nameShownState
        [.tick, .revealComplete, .shuffleComplete 0] = nameShownState := by
  have hq : quiescent nameShownState := by
    rw [nameShownState_eq]
    exact ⟨rfl, rfl, rfl⟩
  have hne : ∀ e ∈ ([.tick, .revealComplete, .shuffleComplete 0] :
      List GameEvent), isStartRequest e = false := by decide
  exact ⟨hq, hne,
    c6_amended nameShownState [.tick, .revealComplete, .shuffleComplete 0] hq hne⟩

theorem errMsgOf_none_of_okFlags (src : FetchOutcome)
    (fl : List FlagEntry) (h : okFlags src = some fl) :
    errMsgOf src = none := by
  cases src with
  | netThrow m => simp [okFlags] at h
  | httpErr status => simp [okFlags] at h
  | ok errorShaped msg parsed =>
    cases errorShaped with
    | false => simp [errMsgOf]
    | true =>
      cases parsed <;> simp [okFlags] at h

theorem tryEndpoints_skip (src : FetchOutcome) (rest : List FetchOutcome)
    (acc : LoadLoopState) (hmsg : errMsgOf src = none)
    (hfl : okFlags src = none) :
    tryEndpoints (src :: rest) acc =
      tryEndpoints rest { acc with queried := acc.queried + 1 } := by
  simp only [tryEndpoints, hmsg, hfl]

theorem tryEndpoints_warn (src : FetchOutcome) (rest : List FetchOutcome)
    (acc : LoadLoopState) (m : String) (hmsg : errMsgOf src = some m) :
    tryEndpoints (src :: rest) acc =
      tryEndpoints rest
        { acc with queried := acc.queried + 1,
                   warnings := acc.warnings ++ [m], lastError := some m } := by
  simp only [tryEndpoints, hmsg]

theorem tryEndpoints_break (src : FetchOutcome) (rest : List FetchOutcome)
    (acc : LoadLoopState) (fl : List FlagEntry) (hfl : okFlags src = some fl) :
    tryEndpoints (src :: rest) acc =
      { acc with queried := acc.queried + 1, flags := some fl } := by
  simp only [tryEndpoints, errMsgOf_none_of_okFlags src fl hfl, hfl]

theorem tryEndpoints_all_fail (sources : List FetchOutcome) :
    ∀ acc : LoadLoopState, (∀ a ∈ sources, okFlags a = none) →
      (tryEndpoints sources acc).flags = acc.flags ∧
      (tryEndpoints sources acc).lastError =
        sources.foldl
          (fun st src =>
            match errMsgOf src with
            | some m => some m
            | none => st)
          acc.lastError := by
  induction sources with
  | nil => intro acc hall; exact ⟨rfl, rfl⟩
  | cons src rest ih =>
    intro acc hall
    have hsrc : okFlags src = none := hall src (List.mem_cons_self src rest)
    have hrest : ∀ a ∈ rest, okFlags a = none :=
      fun a ha => hall a (List.mem_cons_of_mem src ha)
    cases hmsg : errMsgOf src with
    | some m =>
      rw [tryEndpoints_warn src rest acc m hmsg]
      refine ⟨(ih _ hrest).1, ?_⟩
      rw [(ih _ hrest).2]
      simp [hmsg]
    | none =>
      rw [tryEndpoints_skip src rest acc hmsg hsrc]
      refine ⟨(ih _ hrest).1, ?_⟩
      rw [(ih _ hrest).2]
      simp [hmsg]

theorem tryEndpoints_shortcircuit (pre : List FetchOutcome) :
    ∀ (post : List FetchOutcome) (good : FetchOutcome)
      (fl : List FlagEntry) (acc : LoadLoopState),
      (∀ a ∈ pre, okFlags a = none) → okFlags good = some fl →
        (tryEndpoints (pre ++ good :: post) acc).queried =
            acc.queried + pre.length + 1 ∧
        (tryEndpoints (pre ++ good :: post) acc).flags = some fl := by
  induction pre with
  | nil =>
    intro post good fl acc hpre hgood
    rw [List.nil_append, tryEndpoints_break good post acc fl hgood]
    exact ⟨by simp, rfl⟩
  | cons a pre ih =>
    intro post good fl acc hpre hgood
    have ha : okFlags a = none := hpre a (List.mem_cons_self a pre)
    have hpre' : ∀ x ∈ pre, okFlags x = none :=
      fun x hx => hpre x (List.mem_cons_of_mem a hx)
    rw [List.cons_append]
    cases hmsg : errMsgOf a with
    | some m =>
      rw [tryEndpoints_warn a _ acc m hmsg]
      obtain ⟨h1, h2⟩ := ih post good fl _ hpre' hgood
      refine ⟨?_, h2⟩
      rw [h1]
      simp
      omega
    | none =>
      rw [tryEndpoints_skip a _ acc hmsg ha]
      obtain ⟨h1, h2⟩ := ih post good fl _ hpre' hgood
      refine ⟨?_, h2⟩
      rw [h1]
      simp
      omega

/-- C3 as amended: the loader walks the fixed source order and stops at
the first source whose filtered result is non-empty — sources after it
are never queried.  A source that fails by a thrown error (non-success
HTTP status, error-shaped body, network or parse exception) logs one
warning, records the error and moves on; a source whose parser returns an
unrecognized-shape null or an empty filtered list moves on silently: no
warning is logged and no error is recorded for it. -/
theorem c3_amended :
    (∀ (pre post : List FetchOutcome) (good : FetchOutcome)
        (fl : List FlagEntry) (acc : LoadLoopState),
        (∀ a ∈ pre, okFlags a = none) → okFlags good = some fl →
          (tryEndpoints (pre ++ good :: post) acc).queried =
              acc.queried + pre.length + 1 ∧
          (tryEndpoints (pre ++ good :: post) acc).flags = some fl) ∧
    (∀ (src : FetchOutcome) (rest : List FetchOutcome)
        (acc : LoadLoopState) (m : String),
        errMsgOf src = some m →
          tryEndpoints (src :: rest) acc =
            tryEndpoints rest
              { acc with queried := acc.queried + 1,
                         warnings := acc.warnings ++ [m],
                         lastError := some m }) ∧
    (∀ (src : FetchOutcome) (rest : List FetchOutcome)
        (acc : LoadLoopState),
        errMsgOf src = none → okFlags src = none →
          tryEndpoints (src :: rest) acc =
            tryEndpoints rest { acc with queried := acc.queried + 1 }) :=
  ⟨fun pre post good fl acc hpre hgood =>
      tryEndpoints_shortcircuit pre post good fl acc hpre hgood,
    tryEndpoints_warn, tryEndpoints_skip⟩

/-- A scenario with an empty-result first source and a good second one. -/
def c3Sources : List FetchOutcome :=
  [.ok false none (some []), .ok false none (some [frEntry])]

/-- Counterexample for C3 as stated: the first source yields an empty
filtered result, which the claim counts as a per-source failure that is
logged; the loop does proceed to the second source (two sources queried)
but logs no warning at all. -/
theorem c3_counterexample :
    (tryEndpoints c3Sources {}).queried = 2 ∧
    (tryEndpoints c3Sources {}).flags = some [frEntry] ∧
    (tryEndpoints c3Sources {}).warnings = [] := by
  refine ⟨by decide, by decide, by decide⟩

/-- Witness for the amended C3 at a concrete source sequence. -/
theorem c3_witness :
    (∀ a ∈ ([.netThrow "boom"] : List FetchOutcome), okFlags a = none) ∧
    okFlags (.ok false none (some [frEntry])) = some [frEntry] ∧
    (tryEndpoints
        ([.netThrow "boom"] ++ (.ok false none (some [frEntry])) :: [])
        {}).queried = ({} : LoadLoopState).queried + 1 + 1 ∧
    (tryEndpoints
        ([.netThrow "boom"] ++ (.ok false none (some [frEntry])) :: [])
        {}).flags = some [frEntry] :=
  ⟨by decide, by decide,
    (c3_amended.1 [.netThrow "boom"] [] (.ok false none (some [frEntry]))
        [frEntry] {} (by decide) (by decide)).1,
    (c3_amended.1 [.netThrow "boom"] [] (.ok false none (some [frEntry]))
        [frEntry] {} (by decide) (by decide)).2⟩

/-- C4: when every source fails or filters to empty, loadFlags ends in a
failure (never an empty success) whose error is the last thrown one when
any was thrown and the generic message otherwise, and the game returns to
the pre-load resting state: the alert is shown, isLoading and the loading
screen are cleared, the start screen is restored, and the cached working
set stays empty. -/
theorem c4_all_sources_fail (sources : List FetchOutcome) (s : GameState)
    (hall : ∀ a ∈ sources, okFlags a = none) (hflags : s.flags = []) :
    (∃ msg, loadOutcome sources = .error msg) ∧
    (∀ m, lastErrorOf sources = some m → loadOutcome sources = .error m) ∧
    (lastErrorOf sources = none →
      loadOutcome sources = .error "All API endpoints failed") ∧
    loadFlags s sources =
      { s with isLoading := false, loadingScreenActive := false,
               alertShown := true, startScreenHidden := false } ∧
    (loadFlags s sources).flags = [] := by
  obtain ⟨hfl, herr⟩ := tryEndpoints_all_fail sources {} hall
  have hout :
      loadOutcome sources =
        .error ((tryEndpoints sources {}).lastError.getD
          "All API endpoints failed") := by
    simp only [loadOutcome, hfl]
  have hlast : (tryEndpoints sources {}).lastError = lastErrorOf sources := by
    rw [herr]
    rfl
  have hrun :
      loadFlags s sources =
        { s with isLoading := false, loadingScreenActive := false,
                 alertShown := true, startScreenHidden := false } := by
    simp only [loadFlags, hfl]
  refine ⟨⟨_, hout⟩, ?_, ?_, hrun, ?_⟩
  · intro m hm
    rw [hout, hlast, hm]
    rfl
  · intro hm
    rw [hout, hlast, hm]
    rfl
  · rw [hrun]
    exact hflags

/-- A run in which every source throws or filters to empty. -/
def c4Sources : List FetchOutcome :=
  [.httpErr 404, .ok true (some "Not Found") none, .ok false none (some [])]

/-- Witness for C4 at a concrete all-failing source sequence. -/
theorem c4_witness :
    (∀ a ∈ c4Sources, okFlags a = none) ∧
    ({} : GameState).flags = [] ∧
    ((∃ msg, loadOutcome c4Sources = .error msg) ∧
      (∀ m, lastErrorOf c4Sources = some m →
        loadOutcome c4Sources = .error m) ∧
      (lastErrorOf c4Sources = none →
        loadOutcome c4Sources = .error "All API endpoints failed") ∧
      loadFlags {} c4Sources =
        { ({} : GameState) with
            isLoading := false, loadingScreenActive := false,
            alertShown := true, startScreenHidden := false } ∧
      (loadFlags {} c4Sources).flags = []) :=
  ⟨by decide, rfl, c4_all_sources_fail c4Sources {} (by decide) rfl⟩

theorem shuffleCountOf_range (r : ℚ) (h0 : 0 ≤ r) (h1 : r < 1) :
    10 ≤ shuffleCountOf r ∧ shuffleCountOf r ≤ 15 := by
  unfold shuffleCountOf
  have hf0 : (0 : ℤ) ≤ ⌊r * 6⌋ := Int.floor_nonneg.mpr (by positivity)
  have hf6 : ⌊r * 6⌋ < 6 := Int.floor_lt.mpr (by push_cast; linarith)
  omega

theorem shuffleDurationOf_range (r : ℚ) (h0 : 0 ≤ r) (h1 : r < 1) :
    7/10 ≤ shuffleDurationOf r ∧ shuffleDurationOf r ≤ 1 := by
  unfold shuffleDurationOf
  constructor
  · nlinarith
  · nlinarith

theorem shuffleCountOf_eq_iff (r : ℚ) (k : Nat) (h0 : 0 ≤ r) (h1 : r < 1)
    (hk : 10 ≤ k) (hk' : k ≤ 15) :
    shuffleCountOf r = k ↔
      ((k : ℚ) - 10) / 6 ≤ r ∧ r < ((k : ℚ) - 9) / 6 := by
  unfold shuffleCountOf
  have hf0 : (0 : ℤ) ≤ ⌊r * 6⌋ := Int.floor_nonneg.mpr (by positivity)
  constructor
  · intro hEq
    have hfl : ⌊r * 6⌋ = (k : ℤ) - 10 := by omega
    rw [Int.floor_eq_iff] at hfl
    obtain ⟨hl, hr⟩ := hfl
    push_cast at hl hr
    constructor
    · rw [div_le_iff₀ (by norm_num : (0:ℚ) < 6)]
      linarith
    · rw [lt_div_iff₀ (by norm_num : (0:ℚ) < 6)]
      linarith
  · rintro ⟨hl, hr⟩
    rw [div_le_iff₀ (by norm_num : (0:ℚ) < 6)] at hl
    rw [lt_div_iff₀ (by norm_num : (0:ℚ) < 6)] at hr
    have hfl : ⌊r * 6⌋ = (k : ℤ) - 10 := by
      rw [Int.floor_eq_iff]
      push_cast
      constructor <;> linarith
    omega

theorem randFlagIndex_eq_iff (r : ℚ) (n j : Nat) (h0 : 0 ≤ r) (h1 : r < 1)
    (hn : 0 < n) (hj : j < n) :
    randFlagIndex r n = j ↔
      (j : ℚ) / n ≤ r ∧ r < ((j : ℚ) + 1) / n := by
  unfold randFlagIndex
  have hnq : (0 : ℚ) < (n : ℚ) := by exact_mod_cast hn
  have hf0 : (0 : ℤ) ≤ ⌊r * n⌋ := Int.floor_nonneg.mpr (by positivity)
  constructor
  · intro hEq
    have hfl : ⌊r * n⌋ = (j : ℤ) := by omega
    rw [Int.floor_eq_iff] at hfl
    obtain ⟨hl, hr⟩ := hfl
    push_cast at hl hr
    constructor
    · rw [div_le_iff₀ hnq]
      linarith
    · rw [lt_div_iff₀ hnq]
      linarith
  · rintro ⟨hl, hr⟩
    rw [div_le_iff₀ hnq] at hl
    rw [lt_div_iff₀ hnq] at hr
    have hfl : ⌊r * n⌋ = (j : ℤ) := by
      rw [Int.floor_eq_iff]
      push_cast
      constructor <;> linarith
    omega

theorem shuffleShownFlags_get (rand : RandStream) (flags : List FlagEntry)
    (i : Nat) (hi : i < shuffleCountOf (rand 1)) :
    (shuffleFlagsRun rand flags).2.2.1.get? i =
      some (flags.get? (randFlagIndex (rand (2 + i)) flags.length)) := by
  simp only [shuffleFlagsRun, shuffleShownFlags]
  rw [List.get?_map, List.get?_range hi]
  rfl

theorem shuffleFinal_eq (rand : RandStream) (flags : List FlagEntry) :
    (shuffleFlagsRun rand flags).2.2.2 =
      flags.get?
        (randFlagIndex (rand (2 + shuffleCountOf (rand 1))) flags.length) := by
  simp only [shuffleFlagsRun]

theorem shuffleFinal_independent (rand rand' : RandStream)
    (flags : List FlagEntry) (h1 : rand 1 = rand' 1)
    (h2 : rand (2 + shuffleCountOf (rand 1)) =
      rand' (2 + shuffleCountOf (rand' 1))) :
    (shuffleFlagsRun rand flags).2.2.2 =
      (shuffleFlagsRun rand' flags).2.2.2 := by
  simp only [shuffleFlagsRun]
  rw [h2]

theorem shuffleShown_independent (rand rand' : RandStream)
    (flags : List FlagEntry) (h0 : rand 0 = rand' 0) (h1 : rand 1 = rand' 1)
    (hsteps : ∀ i, i < shuffleCountOf (rand 1) → rand (2 + i) = rand' (2 + i)) :
    (shuffleFlagsRun rand flags).1 = (shuffleFlagsRun rand' flags).1 ∧
    (shuffleFlagsRun rand flags).2.1 = (shuffleFlagsRun rand' flags).2.1 ∧
    (shuffleFlagsRun rand flags).2.2.1 = (shuffleFlagsRun rand' flags).2.2.1 := by
  simp only [shuffleFlagsRun, shuffleShownFlags]
  refine ⟨by rw [h0], by rw [h1], ?_⟩
  rw [h1]
  apply List.map_congr_left
  intro x hx
  have hx' : x < shuffleCountOf (rand 1) := by
    rw [h1]
    exact List.mem_range.mp hx
  rw [hsteps x hx']

/-- C7: the shuffle cadence draws its step count as 10 plus the floor of
six times a uniform draw — landing in 10..15 with the preimage of each
value an interval of equal length 1/6 — and its duration as 0.7 plus 0.3
times a uniform draw, landing in [0.7, 1.0]; every decorative step shows
the entry at index floor(r times n), whose preimages are again intervals
of equal length 1/n; the final selection reads the working set at the
index derived from a fresh draw taken after all step draws, so it is
unchanged under any change of the step draws, and the displayed steps are
unchanged under any change of the final draw. -/
theorem c7_shuffle_randomness :
    (∀ r : ℚ, 0 ≤ r → r < 1 →
        (10 ≤ shuffleCountOf r ∧ shuffleCountOf r ≤ 15) ∧
        (7/10 ≤ shuffleDurationOf r ∧ shuffleDurationOf r ≤ 1)) ∧
    (∀ (r : ℚ) (k : Nat), 0 ≤ r → r < 1 → 10 ≤ k → k ≤ 15 →
        (shuffleCountOf r = k ↔
          ((k : ℚ) - 10) / 6 ≤ r ∧ r < ((k : ℚ) - 9) / 6)) ∧
    (∀ (r : ℚ) (n j : Nat), 0 ≤ r → r < 1 → 0 < n → j < n →
        (randFlagIndex r n = j ↔
          (j : ℚ) / n ≤ r ∧ r < ((j : ℚ) + 1) / n)) ∧
    (∀ (rand : RandStream) (flags : List FlagEntry) (i : Nat),
        i < shuffleCountOf (rand 1) →
          (shuffleFlagsRun rand flags).2.2.1.get? i =
            some (flags.get? (randFlagIndex (rand (2 + i)) flags.length))) ∧
    (∀ (rand : RandStream) (flags : List FlagEntry),
        (shuffleFlagsRun rand flags).2.2.2 =
          flags.get? (randFlagIndex (rand (2 + shuffleCountOf (rand 1)))
            flags.length)) ∧
    (∀ (rand rand' : RandStream) (flags : List FlagEntry),
        rand 1 = rand' 1 →
        rand (2 + shuffleCountOf (rand 1)) =
          rand' (2 + shuffleCountOf (rand' 1)) →
          (shuffleFlagsRun rand flags).2.2.2 =
            (shuffleFlagsRun rand' flags).2.2.2) ∧
    (∀ (rand rand' : RandStream) (flags : List FlagEntry),
        rand 0 = rand' 0 → rand 1 = rand' 1 →
        (∀ i, i < shuffleCountOf (rand 1) → rand (2 + i) = rand' (2 + i)) →
          (shuffleFlagsRun rand flags).1 = (shuffleFlagsRun rand' flags).1 ∧
          (shuffleFlagsRun rand flags).2.1 =
            (shuffleFlagsRun rand' flags).2.1 ∧
          (shuffleFlagsRun rand flags).2.2.1 =
            (shuffleFlagsRun rand' flags).2.2.1) :=
  ⟨fun r h0 h1 =>
      ⟨shuffleCountOf_range r h0 h1, shuffleDurationOf_range r h0 h1⟩,
    fun r k h0 h1 hk hk' => shuffleCountOf_eq_iff r k h0 h1 hk hk',
    fun r n j h0 h1 hn hj => randFlagIndex_eq_iff r n j h0 h1 hn hj,
    shuffleShownFlags_get, shuffleFinal_eq, shuffleFinal_independent,
    shuffleShown_independent⟩

/-- The constant random stream drawing 0 at every call. -/
def zeroStream : RandStream := fun _ => 0

/-- Witness for C7 at concrete draws, a concrete working set and a
concrete stream. -/
theorem c7_witness :
    ((0:ℚ) ≤ 1/2 ∧ (1/2:ℚ) < 1 ∧ (0:Nat) < 1 ∧
      (0:Nat) < shuffleCountOf (zeroStream 1)) ∧
    ((10 ≤ shuffleCountOf (1/2) ∧ shuffleCountOf (1/2) ≤ 15) ∧
      (7/10 ≤ shuffleDurationOf (1/2) ∧ shuffleDurationOf (1/2) ≤ 1)) ∧
    (shuffleCountOf (1/2) = 13 ↔
      ((13 : ℚ) - 10) / 6 ≤ 1/2 ∧ (1/2 : ℚ) < ((13 : ℚ) - 9) / 6) ∧
    (randFlagIndex (1/2) 1 = 0 ↔
      ((0 : Nat) : ℚ) / ((1 : Nat) : ℚ) ≤ 1/2 ∧
        (1/2 : ℚ) < (((0 : Nat) : ℚ) + 1) / ((1 : Nat) : ℚ)) ∧
    ((shuffleFlagsRun zeroStream [frEntry]).2.2.1.get? 0 =
      some ([frEntry].get?
        (randFlagIndex (zeroStream (2 + 0))
          ([frEntry] : List FlagEntry).length))) ∧
    ((shuffleFlagsRun zeroStream [frEntry]).2.2.2 =
      [frEntry].get?
        (randFlagIndex (zeroStream (2 + shuffleCountOf (zeroStream 1)))
          ([frEntry] : List FlagEntry).length)) ∧
    ((shuffleFlagsRun zeroStream [frEntry]).2.2.2 =
      (shuffleFlagsRun zeroStream [frEntry]).2.2.2) ∧
    ((shuffleFlagsRun zeroStream [frEntry]).1 =
        (shuffleFlagsRun zeroStream [frEntry]).1 ∧
      (shuffleFlagsRun zeroStream [frEntry]).2.1 =
        (shuffleFlagsRun zeroStream [frEntry]).2.1 ∧
      (shuffleFlagsRun zeroStream [frEntry]).2.2.1 =
        (shuffleFlagsRun zeroStream [frEntry]).2.2.1) := by
  have h0 : (0:ℚ) ≤ 1/2 := by norm_num
  have h1 : (1/2:ℚ) < 1 := by norm_num
  have hz0 : (0:ℚ) ≤ 0 := le_refl 0
  have hz1 : (0:ℚ) < 1 := by norm_num
  have hcnt : (0:Nat) < shuffleCountOf (zeroStream 1) := by
    have h := shuffleCountOf_range 0 hz0 hz1
    have hzs : shuffleCountOf (zeroStream 1) = shuffleCountOf 0 := rfl
    omega
  refine ⟨⟨h0, h1, by norm_num, hcnt⟩, ?_, ?_, ?_, ?_, ?_, ?_, ?_⟩
  · exact c7_shuffle_randomness.1 (1/2) h0 h1
  · exact c7_shuffle_randomness.2.1 (1/2) 13 h0 h1 (by norm_num) (by norm_num)
  · exact c7_shuffle_randomness.2.2.1 (1/2) 1 0 h0 h1 (by norm_num) (by norm_num)
  · exact c7_shuffle_randomness.2.2.2.1 zeroStream [frEntry] 0 hcnt
  · exact c7_shuffle_randomness.2.2.2.2.1 zeroStream [frEntry]
  · exact c7_shuffle_randomness.2.2.2.2.2.1 zeroStream zeroStream [frEntry] rfl rfl
  · exact c7_shuffle_randomness.2.2.2.2.2.2 zeroStream zeroStream [frEntry]
      rfl rfl (fun i _ => rfl)
